import Mathlib

/-!
Verification of the SementicSearchDB core: a shallow embedding of the
post-retrieval ranking and boosting pass (services/semanticSearchService.js,
methods searchSimilar and applyBoosting), the full-replacement update path
(createEntry and updateEntry of the same file), and the Joi validation rules
for search_metadata, primary_embedding and the timestamp fields
(middleware/validation.js, the schema version with createSemanticSearchSchema
at lines 354-401 and updateSemanticSearchSchema at lines 404-451 of the
concatenated routes file).

Numbers are modelled as rationals; a JavaScript number that may be NaN is
modelled as Option of a rational, with none standing for NaN, and every
arithmetic operation propagating none exactly as JavaScript arithmetic
propagates NaN.  Math.exp is transcendental, so it is abstracted as a
function parameter e together with the predicate ExpLike listing the facts
about the real exponential the proofs use (positivity, value at most 1 on
nonpositive arguments, value 1 at 0); every theorem about boosting holds for
all such e, in particular for the real exponential.
-/

/-- A JavaScript number: some q is an ordinary (rational) value, none is NaN. -/
abbrev JsNum := Option ℚ

/-- JavaScript addition: NaN propagates. -/
def jadd : JsNum → JsNum → JsNum
  | some a, some b => some (a + b)
  | _, _ => none

/-- JavaScript subtraction: NaN propagates. -/
def jsub : JsNum → JsNum → JsNum
  | some a, some b => some (a - b)
  | _, _ => none

/-- JavaScript multiplication: NaN propagates. -/
def jmul : JsNum → JsNum → JsNum
  | some a, some b => some (a * b)
  | _, _ => none

/-- Division by a nonzero numeric constant (the code divides by 86400000). -/
def jdivc (a : JsNum) (c : ℚ) : JsNum := a.map (fun q => q / c)

/-- JavaScript unary minus: NaN propagates. -/
def jneg (a : JsNum) : JsNum := a.map (fun q => -q)

/-- Math.exp applied to a possibly-NaN argument; Math.exp NaN is NaN. -/
def jexp (e : ℚ → ℚ) (a : JsNum) : JsNum := a.map e

/-- Math.min with the constant 1.0, as in the final clamp of applyBoosting;
Math.min of NaN and 1 is NaN. -/
def jmin1 (a : JsNum) : JsNum := a.map (fun q => min q 1)

/-- The comparison result.similarity greater-or-equal threshold used by the
threshold cut; any comparison with NaN is false in JavaScript. -/
def jge (s : JsNum) (t : ℚ) : Bool :=
  match s with
  | some q => decide (t ≤ q)
  | none => false

/-- The JavaScript expression value-or-default (v || d) for a numeric field
that is either absent (none) or a genuine number: undefined and 0 are both
falsy, so both fall back to the default. -/
def falsyOr (d : ℚ) (v : Option ℚ) : ℚ :=
  match v with
  | none => d
  | some q => if q = 0 then d else q

/-- The three numeric knobs of search_metadata as applyBoosting reads them;
none means the field is absent (reading a field of a missing object or a
missing field both yield undefined). -/
structure SearchMetadata where
  recency_weight : Option ℚ
  user_preference_alignment : Option ℚ
  boost_factor : Option ℚ
deriving DecidableEq

/-- A search candidate as applyBoosting sees it: the raw similarity written
by the vector search (sim models the dollar-similarity field), the audit copy
written by boosting (origSim models the dollar-original-similarity field,
absent on raw candidates), the parsed creation time in epoch milliseconds
(none when created_at is missing or unparseable, in which case the Date
subtraction yields NaN), the metadata knobs, and rest: all remaining fields
of the record, carried opaquely. -/
structure Candidate (α : Type) where
  sim : JsNum
  origSim : Option JsNum
  created_at : Option ℚ
  metadata : SearchMetadata
  rest : α
deriving DecidableEq

/-- Lines 277-282 of the service: the recency term added to the adjusted
score when boost_recent is set.  daysSinceCreated is (now minus createdAt)
divided by 86400000; the term is exp(-daysSinceCreated * 0.1) times
(recency_weight || 0.5), times 0.1. -/
def recencyTerm (e : ℚ → ℚ) (now : ℚ) {α : Type} (r : Candidate α) : JsNum :=
  let daysSinceCreated : JsNum := jdivc (jsub (some now) r.created_at) 86400000
  let recencyBoost : JsNum :=
    jmul (jexp e (jmul (jneg daysSinceCreated) (some (1/10))))
      (some (falsyOr (1/2) r.metadata.recency_weight))
  jmul recencyBoost (some (1/10))

/-- Lines 285-288 of the service: the preference term added when
boost_preferences is set, (user_preference_alignment || 0.5) * 0.1. -/
def preferenceTerm {α : Type} (r : Candidate α) : ℚ :=
  falsyOr (1/2) r.metadata.user_preference_alignment * (1/10)

/-- Lines 290-293 of the service: the adjusted score is multiplied by
boost_factor only when metadata.boost_factor is truthy (present and nonzero)
and different from 1.0. -/
def boostFactorStep (bf : Option ℚ) (x : JsNum) : JsNum :=
  match bf with
  | some b => if b ≠ 0 ∧ b ≠ 1 then jmul x (some b) else x
  | none => x

/-- The per-candidate body of the map inside applyBoosting (lines 272-299):
start from the raw similarity, add the recency and preference terms as the
flags dictate, apply the boost_factor multiplier, clamp at 1.0, and record
the raw similarity in the audit field. -/
def boostOne (e : ℚ → ℚ) (now : ℚ) (br bp : Bool) {α : Type} (r : Candidate α) :
    Candidate α :=
  let a0 : JsNum := r.sim
  let a1 : JsNum := if br then jadd a0 (recencyTerm e now r) else a0
  let a2 : JsNum := if bp then jadd a1 (some (preferenceTerm r)) else a1
  let a3 : JsNum := boostFactorStep r.metadata.boost_factor a2
  { r with sim := jmin1 a3, origSim := some r.sim }

/-- The comparator of the final sort (line 300), sorting descending by the
adjusted similarity; a comparison involving NaN keeps the relative order, as
the JavaScript comparator returns NaN which the sort treats as 0. -/
def candLe {α : Type} (a b : Candidate α) : Bool :=
  match a.sim, b.sim with
  | some x, some y => decide (y ≤ x)
  | _, _ => true

/-- Lines 268-301 of the service: map the boosting body over the results and
sort descending by adjusted similarity (stable merge sort, matching the
stable sort of the JavaScript runtime). -/
def applyBoosting (e : ℚ → ℚ) (now : ℚ) {α : Type} (results : List (Candidate α))
    (br bp : Bool) : List (Candidate α) :=
  ((results.map (boostOne e now br bp)).mergeSort candLe)

/-- The data part of the searchSimilar response (lines 250-258). -/
structure SearchOutcome (α : Type) where
  results : List (Candidate α)
  total : ℕ
  similarity_threshold : ℚ
  boost_applied : Bool

/-- Lines 235-258 of the service method searchSimilar: the post-retrieval
pass.  The vector search itself is the external collaborator; its output is
the results argument.  Candidates below the threshold are filtered out,
boosting runs only when at least one flag is set, and the response reports
the processed list, its length, the threshold, and whether boosting ran. -/
def searchSimilar (e : ℚ → ℚ) (now : ℚ) {α : Type} (results : List (Candidate α))
    (similarity_threshold : ℚ) (br bp : Bool) : SearchOutcome α :=
  let filteredResults := results.filter (fun r => jge r.sim similarity_threshold)
  let processedResults :=
    if br || bp then applyBoosting e now filteredResults br bp else filteredResults
  { results := processedResults
    total := processedResults.length
    similarity_threshold := similarity_threshold
    boost_applied := br || bp }

/-- The facts about the real exponential used by the boosting proofs: it is
positive, at most 1 on nonpositive arguments, and 1 at 0.  Theorems are
stated for every function with these properties, hence in particular for the
real Math.exp. -/
structure ExpLike (e : ℚ → ℚ) : Prop where
  pos : ∀ x, 0 < e x
  le_one : ∀ x, x ≤ 0 → e x ≤ 1
  map_zero : e 0 = 1

/-- A concrete ExpLike instance used to evaluate the model at points where
only the value at 0 matters (the real exponential also takes the value 1
there). -/
def expOne : ℚ → ℚ := fun _ => 1

/-- A JSON-like value stored in an entry document. -/
inductive JVal where
  | undef
  | str (s : String)
  | num (q : ℚ)
  | jbool (b : Bool)
  | arr (elems : List JVal)

/-- An entry document as an ordered list of key-value pairs, in the order the
object literal lists them; a later binding of the same key overrides an
earlier one, exactly as in a JavaScript object literal with spreads. -/
abbrev Obj := List (String × JVal)

/-- Reading a field of a document: the last binding of the key wins, none
when the key is absent. -/
def getField : Obj → String → Option JVal
  | [], _ => none
  | kv :: rest, k =>
    match getField rest k with
    | some v => some v
    | none => if kv.1 = k then some kv.2 else none

/-- Lines 71-75 of the service method createEntry: the stored entry is the
object literal with the freshly generated identity followed by the spread of
the request body. -/
def createEntry (newId : JVal) (entryData : Obj) : Obj :=
  ("_id", newId) :: entryData

/-- Lines 137-141 of the service method updateEntry: the replacement entry is
the object literal with the route identity first, then the spread of the
validated request body, then created_at bound to the created_at of the
existing entry, which as the last binding overrides anything the body
supplied for that key. -/
def updateEntry (id : JVal) (existingEntry : Obj) (newEntryData : Obj) : Obj :=
  ("_id", id) :: newEntryData ++
    [("created_at", (getField existingEntry "created_at").getD JVal.undef)]

/-- One field-level Joi violation: the field path, the Joi error code, and
the numeric limit the Joi error context carries when the rule has one. -/
structure Violation where
  path : String
  code : String
  limit : Option ℚ
deriving DecidableEq

/-- One knob of the search_metadata sub-schema of the create and update
schemas: Joi.number().min(0).required().  Missing is a required-violation, a
non-number is a base-violation, a number below 0 is a min-violation carrying
the limit 0.  No upper bound appears in these schema literals. -/
def checkMetaField (name : String) (v : Option JVal) : List Violation :=
  match v with
  | none => [{ path := "search_metadata." ++ name, code := "any.required", limit := none }]
  | some (JVal.num q) =>
    if q < 0 then
      [{ path := "search_metadata." ++ name, code := "number.min", limit := some 0 }]
    else []
  | some _ => [{ path := "search_metadata." ++ name, code := "number.base", limit := none }]

/-- The search_metadata sub-schema shared verbatim by the create schema
(lines 396-400) and the update schema (lines 446-450): an optional object
whose three knobs are each Joi.number().min(0).required().  Violations are
collected across all fields (abortEarly is false). -/
def validateSearchMetadata (m : Option Obj) : List Violation :=
  match m with
  | none => []
  | some o =>
    checkMetaField "boost_factor" (getField o "boost_factor") ++
    checkMetaField "recency_weight" (getField o "recency_weight") ++
    checkMetaField "user_preference_alignment" (getField o "user_preference_alignment")

/-- The search_metadata check as the create schema performs it
(lines 396-400 of createSemanticSearchSchema). -/
def createSearchMetadataCheck : Option Obj → List Violation := validateSearchMetadata

/-- The search_metadata check as the update schema performs it
(lines 446-450 of updateSemanticSearchSchema): textually identical to the
create version, so the range rules are re-applied on replacement. -/
def updateSearchMetadataCheck : Option Obj → List Violation := validateSearchMetadata

/-- The element coercion of Joi.number() under the validate call of the
middleware, whose options leave convert at its default true: a number is
taken as-is, a string is coerced through numeric parsing, and any other
value is not a number.  The parser is abstracted as the parameter parseNum,
with the convention that parseNum s = some q exactly when the JavaScript
numeric parse of s yields the finite number q (the parse is locale and
format logic of the Joi library, external to this repository). -/
def coerceNum (parseNum : String → Option ℚ) : JVal → Option ℚ
  | JVal.num q => some q
  | JVal.str s => parseNum s
  | _ => none

/-- Item violations of the primary_embedding array rule
Joi.array().items(Joi.number().required()): every element that does not
coerce to a number (under convert, numeric strings do coerce) is reported at
its index. -/
def embeddingItemViolationsAux (parseNum : String → Option ℚ) (i : ℕ) :
    List JVal → List Violation
  | [] => []
  | x :: rest =>
    match coerceNum parseNum x with
    | some _ => embeddingItemViolationsAux parseNum (i + 1) rest
    | none =>
      { path := "primary_embedding." ++ toString i, code := "number.base", limit := none } ::
        embeddingItemViolationsAux parseNum (i + 1) rest

/-- The array body of the primary_embedding rule: collect the item
violations and, when the length is not 768, a length-violation whose context
carries the limit 768; with no violation the canonical value is the
element-by-element coercion of the supplied sequence, in order. -/
def validateEmbeddingArr (parseNum : String → Option ℚ) (xs : List JVal) :
    Except (List Violation) (List ℚ) :=
  match embeddingItemViolationsAux parseNum 0 xs ++
      (if xs.length = 768 then []
       else [{ path := "primary_embedding", code := "array.length", limit := some 768 }]) with
  | [] => Except.ok (xs.filterMap (coerceNum parseNum))
  | viols => Except.error viols

/-- Line 363 of createSemanticSearchSchema and line 413 of
updateSemanticSearchSchema: primary_embedding is
Joi.array().items(Joi.number().required()).length(768).required(), validated
with convert at its default true.  A missing value is a required-violation;
a string may coerce to an array through the JSON parse Joi.array() attempts
under convert, abstracted as the parameter parseArr (parseArr s = some xs
exactly when Joi coerces the string s to the array xs), and a string that
does not coerce, like any other non-array, is a base-violation (the length
rule is not reached). -/
def validatePrimaryEmbedding (parseNum : String → Option ℚ)
    (parseArr : String → Option (List JVal)) (v : Option JVal) :
    Except (List Violation) (List ℚ) :=
  match v with
  | none =>
    Except.error [{ path := "primary_embedding", code := "any.required", limit := none }]
  | some (JVal.arr xs) => validateEmbeddingArr parseNum xs
  | some (JVal.str s) =>
    match parseArr s with
    | some xs => validateEmbeddingArr parseNum xs
    | none =>
      Except.error [{ path := "primary_embedding", code := "array.base", limit := none }]
  | some _ =>
    Except.error [{ path := "primary_embedding", code := "array.base", limit := none }]

/-- A concrete numeric parse used by witnesses: it recognizes the single
string used there and agrees with the JavaScript parse on it. -/
def parseOne : String → Option ℚ := fun s => if s = "1" then some 1 else none

/-- A concrete array coercion used by witnesses: no string coerces. -/
def parseArrNone : String → Option (List JVal) := fun _ => none

/-- Lines 364-365 of createSemanticSearchSchema and lines 414-415 of
updateSemanticSearchSchema: the complete rule the write schemas place on the
two timestamps, Joi.string().required() for each.  No rule relates the two
values to each other. -/
def timestampFieldsOk (p : Obj) : Bool :=
  (match getField p "created_at" with | some (JVal.str _) => true | _ => false) &&
  (match getField p "updated_at" with | some (JVal.str _) => true | _ => false)

/-- Lexicographic order on character lists, used to compare ISO-8601
timestamp strings; on equal-format timestamps this coincides with
chronological order. -/
def charListLe : List Char → List Char → Bool
  | [], _ => true
  | _ :: _, [] => false
  | a :: as, b :: bs => if a = b then charListLe as bs else decide (a < b)

/-- Order on ISO-8601 timestamp strings. -/
def isoLe (a b : String) : Bool := charListLe a.data b.data

/-- A candidate with only a raw similarity: no audit field, no creation time,
no metadata knobs. -/
def mkCand (q : ℚ) : Candidate Unit :=
  { sim := some q, origSim := none, created_at := none
    metadata := { recency_weight := none, user_preference_alignment := none, boost_factor := none }
    rest := () }

/-- Concrete candidate for the C3 witness: all knobs set, boost_factor 5. -/
def c3w : Candidate Unit :=
  { sim := some (99/100), origSim := none, created_at := some 0
    metadata := { recency_weight := some 1, user_preference_alignment := some 1, boost_factor := some 5 }
    rest := () }

/-- Concrete candidate for the C4 witness: recency_weight 3/4, created at
epoch time 0. -/
def c4w : Candidate Unit :=
  { sim := some (1/2), origSim := none, created_at := some 0
    metadata := { recency_weight := some (3/4), user_preference_alignment := none, boost_factor := none }
    rest := () }

/-- Concrete candidate for the C4 counterexample: it carries an explicit
recency_weight of 0, created at epoch time 0. -/
def c4x : Candidate Unit :=
  { sim := some (1/2), origSim := none, created_at := some 0
    metadata := { recency_weight := some 0, user_preference_alignment := none, boost_factor := none }
    rest := () }

/-- Concrete candidate for the C5 counterexample: raw similarity 9/10 and no
created_at at all. -/
def c5x : Candidate Unit :=
  { sim := some (9/10), origSim := none, created_at := none
    metadata := { recency_weight := none, user_preference_alignment := none, boost_factor := none }
    rest := () }

/-- Concrete search_metadata object for the C7 counterexample: boost_factor 1,
recency_weight 2 (above the documented range 0 to 1), alignment 1/2. -/
def o7x : Obj :=
  [("boost_factor", JVal.num 1), ("recency_weight", JVal.num 2),
   ("user_preference_alignment", JVal.num (1/2))]

/-- Concrete search_metadata object for the C7 witness: all knobs in range. -/
def o7w : Obj :=
  [("boost_factor", JVal.num 1), ("recency_weight", JVal.num (1/2)),
   ("user_preference_alignment", JVal.num (1/2))]

/-- Concrete payload for the C9 counterexample: created_at ten years after
updated_at, both syntactically valid ISO-8601 strings. -/
def c9payload : Obj :=
  [("created_at", JVal.str "2030-01-01T00:00:00.000Z"),
   ("updated_at", JVal.str "2020-01-01T00:00:00.000Z")]

/-- Concrete payload for the C9 witness: created_at before updated_at. -/
def c9wPayload : Obj :=
  [("title", JVal.str "t"),
   ("created_at", JVal.str "2020-01-01T00:00:00.000Z"),
   ("updated_at", JVal.str "2021-01-01T00:00:00.000Z")]

/-- Concrete existing entry and payload for the C2 witness. -/
def c2existing : Obj :=
  [("_id", JVal.str "11111111-1111-1111-1111-111111111111"),
   ("title", JVal.str "old title"),
   ("created_at", JVal.str "2020-01-01T00:00:00.000Z"),
   ("updated_at", JVal.str "2020-01-01T00:00:00.000Z")]

/-- Concrete replacement payload for the C2 witness: it even tries to supply
its own created_at, which replacement must ignore. -/
def c2payload : Obj :=
  [("title", JVal.str "new title"),
   ("created_at", JVal.str "1999-01-01T00:00:00.000Z"),
   ("updated_at", JVal.str "2024-01-01T00:00:00.000Z")]

theorem mergeSort_singleton_eq {β : Type} (a : β) (le : β → β → Bool) :
    [a].mergeSort le = [a] :=
  List.perm_singleton.mp (List.mergeSort_perm [a] le)

theorem expOne_expLike : ExpLike expOne :=
  ⟨fun _ => one_pos, fun _ _ => le_rfl, rfl⟩

theorem jge_eq_true_iff (s : JsNum) (t : ℚ) :
    jge s t = true ↔ ∃ q, s = some q ∧ t ≤ q := by
  cases s <;> simp [jge]

theorem getField_append (l₁ l₂ : Obj) (k : String) :
    getField (l₁ ++ l₂) k = Option.or (getField l₂ k) (getField l₁ k) := by
  induction l₁ with
  | nil => cases h : getField l₂ k <;> simp [getField, Option.or, h]
  | cons kv rest ih =>
    show getField (kv :: (rest ++ l₂)) k = _
    rw [getField, ih]
    cases h₂ : getField l₂ k <;> cases hr : getField rest k <;>
      simp [Option.or, getField, hr]

/-- C1: with neither boost flag set, searchSimilar keeps exactly the
candidates whose raw similarity is at least the threshold (those strictly
below are discarded), returns the survivors in the order received (the
output is a sublist of the input), reports total equal to the number of
survivors, and maps an empty candidate list to an empty result with count 0
rather than an error. -/
theorem claim_C1 (e : ℚ → ℚ) (now θ : ℚ) {α : Type} (results : List (Candidate α)) :
    List.Sublist (searchSimilar e now results θ false false).results results
    ∧ (∀ r ∈ results,
        r ∈ (searchSimilar e now results θ false false).results ↔ ∃ q, r.sim = some q ∧ θ ≤ q)
    ∧ (searchSimilar e now results θ false false).total =
        (searchSimilar e now results θ false false).results.length
    ∧ (results = [] →
        (searchSimilar e now results θ false false).results = []
        ∧ (searchSimilar e now results θ false false).total = 0) := by
  have hres : (searchSimilar e now results θ false false).results =
      results.filter (fun r => jge r.sim θ) := by
    simp [searchSimilar]
  refine ⟨?_, ?_, ?_, ?_⟩
  · rw [hres]; exact List.filter_sublist results
  · intro r hr
    rw [hres, List.mem_filter]
    simp [hr, jge_eq_true_iff]
  · rfl
  · intro h
    subst h
    exact ⟨by rw [hres]; rfl, rfl⟩

/-- C1 witness: on candidates with raw similarities 9/10, 6/10, 75/100 and
threshold 7/10, membership of the first candidate in the output is equivalent
to its similarity clearing the threshold. -/
theorem claim_C1_witness :
    (mkCand (9/10) ∈
        (searchSimilar expOne 0 [mkCand (9/10), mkCand (6/10), mkCand (75/100)]
          (7/10) false false).results
      ↔ ∃ q, (mkCand (9/10)).sim = some q ∧ (7/10 : ℚ) ≤ q) :=
  (claim_C1 expOne 0 (7/10) [mkCand (9/10), mkCand (6/10), mkCand (75/100)]).2.1
    (mkCand (9/10)) (by simp)

/-- C3: every adjusted similarity reported by the boosting pass is at most
1.0, for every candidate, every flag combination and all metadata values
(in particular for boost_factor values up to 10): the final clamp
Math.min(adjusted, 1.0) guarantees the bound unconditionally. -/
theorem claim_C3 (e : ℚ → ℚ) (now : ℚ) {α : Type} (results : List (Candidate α))
    (br bp : Bool) (c : Candidate α) (hc : c ∈ applyBoosting e now results br bp)
    (q : ℚ) (hq : c.sim = some q) : q ≤ 1 := by
  have hmem : c ∈ results.map (boostOne e now br bp) :=
    ((List.mergeSort_perm (results.map (boostOne e now br bp)) candLe).mem_iff).mp hc
  rcases List.mem_map.mp hmem with ⟨r, _, hr⟩
  subst hr
  have : (boostOne e now br bp r).sim =
      jmin1 (boostFactorStep r.metadata.boost_factor
        (if bp then jadd (if br then jadd r.sim (recencyTerm e now r) else r.sim)
            (some (preferenceTerm r))
          else if br then jadd r.sim (recencyTerm e now r) else r.sim)) := rfl
  rw [this] at hq
  rcases ha : boostFactorStep r.metadata.boost_factor
      (if bp then jadd (if br then jadd r.sim (recencyTerm e now r) else r.sim)
          (some (preferenceTerm r))
        else if br then jadd r.sim (recencyTerm e now r) else r.sim) with _ | v
  · rw [ha] at hq; simp [jmin1] at hq
  · rw [ha] at hq
    simp only [jmin1, Option.map_some', Option.some.injEq] at hq
    rw [← hq]
    exact min_le_right v 1

/-- C3 witness: the candidate c3w boosted with both flags and boost_factor 5
reaches the cap and its reported similarity 1 is at most 1. -/
theorem claim_C3_witness :
    (boostOne expOne 0 true true c3w).sim = some 1 ∧ (1 : ℚ) ≤ 1 := by
  have hsim : (boostOne expOne 0 true true c3w).sim = some 1 := by
    simp [boostOne, recencyTerm, preferenceTerm, boostFactorStep, c3w, jadd, jmul,
      jneg, jexp, jdivc, jsub, jmin1, falsyOr, expOne]
    norm_num
  have hmem : boostOne expOne 0 true true c3w ∈ applyBoosting expOne 0 [c3w] true true := by
    have h1 : applyBoosting expOne 0 [c3w] true true = [boostOne expOne 0 true true c3w] :=
      mergeSort_singleton_eq _ _
    rw [h1]
    exact List.mem_singleton.mpr rfl
  exact ⟨hsim, claim_C3 expOne 0 [c3w] true true _ hmem 1 hsim⟩

/-- C5 amended: a candidate with no created_at does not fail the query and is
not dropped (boosting preserves the number of candidates), but with
boost_recent set its adjusted similarity is NaN (modelled as none), not a
well-defined number: new Date(undefined) is Invalid Date, the day difference
is NaN, and NaN propagates through the exponential, the additions, the
multiplier and the final Math.min. -/
theorem claim_C5 (e : ℚ → ℚ) (now : ℚ) {α : Type} (bp : Bool) (r : Candidate α)
    (h : r.created_at = none) :
    (boostOne e now true bp r).sim = none
    ∧ (boostOne e now true bp r).origSim = some r.sim
    ∧ ∀ results : List (Candidate α),
        (applyBoosting e now results true bp).length = results.length := by
  refine ⟨?_, rfl, ?_⟩
  · rcases hbf : r.metadata.boost_factor with _ | b <;> cases bp <;>
      simp [boostOne, recencyTerm, boostFactorStep, hbf, h, jsub, jdivc, jneg,
        jexp, jmul, jadd, jmin1]
  · intro results
    calc (applyBoosting e now results true bp).length
        = (results.map (boostOne e now true bp)).length :=
          (List.mergeSort_perm (results.map (boostOne e now true bp)) candLe).length_eq
      _ = results.length := List.length_map _ _

/-- C5 counterexample: boosting the single candidate c5x, which has no
created_at, with boost_recent set yields a record whose reported similarity
is NaN (none), refuting the claim that the adjusted score is a well-defined
number obtained by treating the candidate as maximally stale. -/
theorem claim_C5_counterexample :
    applyBoosting expOne 0 [c5x] true false =
      [{ c5x with sim := none, origSim := some (some (9/10)) }]
    ∧ ({ c5x with sim := none, origSim := some (some (9/10)) } : Candidate Unit).sim = none := by
  constructor
  · have h1 : applyBoosting expOne 0 [c5x] true false =
        [boostOne expOne 0 true false c5x] := mergeSort_singleton_eq _ _
    rw [h1]
    rfl
  · rfl

/-- C5 witness: instantiating the amended statement at c5x. -/
theorem claim_C5_witness :
    (boostOne expOne 0 true false c5x).sim = none
    ∧ (boostOne expOne 0 true false c5x).origSim = some (some (9/10)) :=
  ⟨(claim_C5 expOne 0 false c5x rfl).1, (claim_C5 expOne 0 false c5x rfl).2.1⟩

/-- C6 amended: the boost_factor multiplier runs only when the field is
present, nonzero and different from 1.0; a missing boost_factor, a
boost_factor of 1 and a boost_factor of 0 all leave the adjusted score
unchanged (0 is falsy in the guard metadata.boost_factor &&
metadata.boost_factor !== 1.0), and any other value multiplies the score.
With both flags clear the reported similarity is exactly the clamped result
of this step applied to the raw similarity. -/
theorem claim_C6 (x : JsNum) (b : ℚ) :
    boostFactorStep none x = x
    ∧ boostFactorStep (some 1) x = x
    ∧ boostFactorStep (some 0) x = x
    ∧ (b ≠ 0 → b ≠ 1 → boostFactorStep (some b) x = jmul x (some b))
    ∧ ∀ (α : Type) (e : ℚ → ℚ) (now : ℚ) (r : Candidate α),
        (boostOne e now false false r).sim =
          jmin1 (boostFactorStep r.metadata.boost_factor r.sim) := by
  refine ⟨rfl, ?_, ?_, ?_, ?_⟩
  · simp [boostFactorStep]
  · simp [boostFactorStep]
  · intro h0 h1
    simp [boostFactorStep, h0, h1]
  · intro α e now r
    rfl

/-- C6 counterexample: a candidate field boost_factor of 0 is skipped by the
truthiness guard, leaving the adjusted score 1/2 unchanged instead of
multiplying it to 0 as the claim states. -/
theorem claim_C6_counterexample :
    boostFactorStep (some 0) (some (1/2)) = some (1/2)
    ∧ (some (1/2 : ℚ) : JsNum) ≠ some 0 := by
  constructor
  · simp [boostFactorStep]
  · simp only [ne_eq, Option.some.injEq]
    norm_num

/-- C6 witness: boost_factor 5 is applied as a multiplier. -/
theorem claim_C6_witness :
    boostFactorStep (some 5) (some (1/2)) = jmul (some (1/2)) (some 5)
    ∧ (5 : ℚ) ≠ 0 :=
  ⟨(claim_C6 (some (1/2)) 5).2.2.2.1 (by norm_num) (by norm_num), by norm_num⟩

/-- C10: with at least one boost flag set and a non-empty candidate list,
applyBoosting returns a permutation of the per-candidate boosted images of
its input (no candidate is added or dropped by the sort), and the boosted
image of a candidate agrees with it on every field other than the similarity
and the audit field, with the audit field holding exactly the raw input
similarity. -/
theorem claim_C10 (e : ℚ → ℚ) (now : ℚ) {α : Type} (results : List (Candidate α))
    (br bp : Bool) (_hne : results ≠ []) (_hfl : br = true ∨ bp = true) :
    List.Perm (applyBoosting e now results br bp) (results.map (boostOne e now br bp))
    ∧ ∀ r : Candidate α,
        (boostOne e now br bp r).created_at = r.created_at
        ∧ (boostOne e now br bp r).metadata = r.metadata
        ∧ (boostOne e now br bp r).rest = r.rest
        ∧ (boostOne e now br bp r).origSim = some r.sim :=
  ⟨List.mergeSort_perm _ _, fun _ => ⟨rfl, rfl, rfl, rfl⟩⟩

/-- C10 witness: instantiation on the singleton list holding mkCand (4/5)
with boost_recent set. -/
theorem claim_C10_witness :
    List.Perm (applyBoosting expOne 0 [mkCand (4/5)] true false)
      ([mkCand (4/5)].map (boostOne expOne 0 true false))
    ∧ (boostOne expOne 0 true false (mkCand (4/5))).origSim = some (mkCand (4/5)).sim :=
  ⟨(claim_C10 expOne 0 [mkCand (4/5)] true false (by simp) (Or.inl rfl)).1,
   ((claim_C10 expOne 0 [mkCand (4/5)] true false (by simp) (Or.inl rfl)).2
     (mkCand (4/5))).2.2.2⟩

theorem getField_cons (kv : String × JVal) (rest : Obj) (k : String) :
    getField (kv :: rest) k =
      match getField rest k with
      | some v => some v
      | none => if kv.1 = k then some kv.2 else none := rfl

/-- C4 amended: with boost_recent set and a parseable created_at, the amount
added to the adjusted score is exactly exp(-0.1 * age_days) * w * 0.1 where
age_days is (now minus created_at) in days WITHOUT any clamping at 0, and w
is recency_weight when the entry carries a nonzero one but falls back to 0.5
both when the field is absent and when it is 0 (the JavaScript || treats 0 as
missing); when the entry is not from the future (age_days nonnegative) and w
is nonnegative the contribution lies in the interval [0, 0.1 * w]. -/
theorem claim_C4 (e : ℚ → ℚ) (he : ExpLike e) (now t : ℚ) {α : Type} (r : Candidate α)
    (hc : r.created_at = some t)
    (hw : 0 ≤ falsyOr (1/2) r.metadata.recency_weight) :
    recencyTerm e now r =
      some (e (-((now - t) / 86400000) * (1/10)) * falsyOr (1/2) r.metadata.recency_weight * (1/10))
    ∧ (r.metadata.recency_weight = none → falsyOr (1/2) r.metadata.recency_weight = 1/2)
    ∧ (r.metadata.recency_weight = some 0 → falsyOr (1/2) r.metadata.recency_weight = 1/2)
    ∧ (∀ w, r.metadata.recency_weight = some w → w ≠ 0 →
        falsyOr (1/2) r.metadata.recency_weight = w)
    ∧ (t ≤ now →
        0 ≤ e (-((now - t) / 86400000) * (1/10)) * falsyOr (1/2) r.metadata.recency_weight * (1/10)
        ∧ e (-((now - t) / 86400000) * (1/10)) * falsyOr (1/2) r.metadata.recency_weight * (1/10)
          ≤ falsyOr (1/2) r.metadata.recency_weight * (1/10)) := by
  refine ⟨?_, ?_, ?_, ?_, ?_⟩
  · simp [recencyTerm, hc, jsub, jdivc, jneg, jexp, jmul]
  · intro h; simp [falsyOr, h]
  · intro h; simp [falsyOr, h]
  · intro w h hne; simp [falsyOr, h, hne]
  · intro hle
    have hage : (0 : ℚ) ≤ (now - t) / 86400000 := div_nonneg (by linarith) (by norm_num)
    have hx : -((now - t) / 86400000) * (1/10) ≤ 0 := by nlinarith
    have h1 : e (-((now - t) / 86400000) * (1/10)) ≤ 1 := he.le_one _ hx
    have h0 : 0 < e (-((now - t) / 86400000) * (1/10)) := he.pos _
    constructor
    · exact mul_nonneg (mul_nonneg h0.le hw) (by norm_num)
    · have key : 0 ≤ falsyOr (1/2) r.metadata.recency_weight
          - e (-((now - t) / 86400000) * (1/10)) * falsyOr (1/2) r.metadata.recency_weight := by
        nlinarith [mul_nonneg (sub_nonneg.mpr h1) hw]
      nlinarith [key]

/-- C4 witness: the candidate c4w carries recency_weight 3/4 and was created
at epoch time 0; evaluated one day later the recency term matches the formula
and is nonnegative. -/
theorem claim_C4_witness :
    recencyTerm expOne 86400000 c4w =
      some (expOne (-(((86400000 : ℚ) - 0) / 86400000) * (1/10))
        * falsyOr (1/2) c4w.metadata.recency_weight * (1/10))
    ∧ 0 ≤ expOne (-(((86400000 : ℚ) - 0) / 86400000) * (1/10))
        * falsyOr (1/2) c4w.metadata.recency_weight * (1/10) :=
  have hw : (0 : ℚ) ≤ falsyOr (1/2) c4w.metadata.recency_weight := by
    norm_num [falsyOr, c4w]
  ⟨(claim_C4 expOne expOne_expLike 86400000 0 c4w rfl hw).1,
   ((claim_C4 expOne expOne_expLike 86400000 0 c4w rfl hw).2.2.2.2 (by norm_num)).1⟩

/-- C4 counterexample: the candidate c4x carries an explicit recency_weight
of 0 and age 0, so the claim as stated predicts a contribution of
exp(0) * 0 * 0.1 = 0, but the code adds 1/20: the JavaScript || falls back to
0.5 on the falsy carried value 0.  The function expOne agrees with the real
exponential at 0, the only point evaluated. -/
theorem claim_C4_counterexample :
    expOne 0 = 1
    ∧ c4x.metadata.recency_weight = some 0
    ∧ recencyTerm expOne 0 c4x = some (1/20)
    ∧ recencyTerm expOne 0 c4x ≠
        some (expOne (-(((0 : ℚ) - 0) / 86400000) * (1/10)) * 0 * (1/10)) := by
  refine ⟨rfl, rfl, ?_, ?_⟩
  · simp [recencyTerm, c4x, jsub, jdivc, jneg, jexp, jmul, falsyOr, expOne]
    norm_num
  · simp [recencyTerm, c4x, jsub, jdivc, jneg, jexp, jmul, falsyOr, expOne]

/-- C2: replacing an existing entry keeps the identity and created_at of the
original entry, whatever the validated replacement payload contains (the
validator strips the unknown identity key from the payload, modelled by the
hypothesis that the payload binds no identity; created_at is bound last in
the replacement literal, so it overrides any created_at of the payload), and
every other field of the stored record is read from the payload alone. -/
theorem claim_C2 (id : JVal) (existingEntry newEntryData : Obj)
    (hid : getField existingEntry "_id" = some id)
    (hnoid : getField newEntryData "_id" = none)
    (c : JVal) (hc : getField existingEntry "created_at" = some c) :
    getField (updateEntry id existingEntry newEntryData) "_id" = getField existingEntry "_id"
    ∧ getField (updateEntry id existingEntry newEntryData) "created_at"
        = getField existingEntry "created_at"
    ∧ ∀ k, k ≠ "_id" → k ≠ "created_at" →
        getField (updateEntry id existingEntry newEntryData) k = getField newEntryData k := by
  refine ⟨?_, ?_, ?_⟩
  · rw [hid]
    simp [updateEntry, getField_cons, getField_append, getField, hnoid, Option.or]
  · rw [hc]
    simp [updateEntry, getField_cons, getField_append, getField, hc, Option.or]
  · intro k hk1 hk2
    have h1 : getField [("created_at", (getField existingEntry "created_at").getD JVal.undef)] k
        = none := by
      simp [getField, Ne.symm hk2]
    simp only [updateEntry, List.cons_append, getField_cons, getField_append, h1, Option.or]
    cases hp : getField newEntryData k <;> simp [hp, Ne.symm hk1]

/-- C2 witness: a concrete replacement whose payload even supplies its own
created_at; the stored record keeps the original identity and creation time
and takes its title from the payload. -/
theorem claim_C2_witness :
    getField (updateEntry (JVal.str "11111111-1111-1111-1111-111111111111") c2existing c2payload)
        "title" = getField c2payload "title"
    ∧ getField (updateEntry (JVal.str "11111111-1111-1111-1111-111111111111") c2existing c2payload)
        "_id" = getField c2existing "_id"
    ∧ getField (updateEntry (JVal.str "11111111-1111-1111-1111-111111111111") c2existing c2payload)
        "created_at" = getField c2existing "created_at" :=
  have h := claim_C2 (JVal.str "11111111-1111-1111-1111-111111111111") c2existing c2payload
    rfl rfl (JVal.str "2020-01-01T00:00:00.000Z") rfl
  ⟨h.2.2 "title" (by decide) (by decide), h.1, h.2.1⟩

/-- C9 amended: the write path accepts the two timestamps as arbitrary
required strings and stores them untouched: a created entry carries exactly
the created_at and updated_at of the payload, a replaced entry carries the
created_at of the original and the updated_at of the payload, and no rule
relates the two values, so created_at at most updated_at holds after a
mutation exactly when the supplied values already satisfy it. -/
theorem claim_C9 (newId idv : JVal) (p existingEntry : Obj) (ca ua : String)
    (hpc : getField p "created_at" = some (JVal.str ca))
    (hpu : getField p "updated_at" = some (JVal.str ua)) :
    timestampFieldsOk p = true
    ∧ getField (createEntry newId p) "created_at" = some (JVal.str ca)
    ∧ getField (createEntry newId p) "updated_at" = some (JVal.str ua)
    ∧ (∀ cb, getField existingEntry "created_at" = some cb →
        getField (updateEntry idv existingEntry p) "created_at" = some cb)
    ∧ getField (updateEntry idv existingEntry p) "updated_at" = some (JVal.str ua)
    ∧ (isoLe ca ua = true →
        ∃ a b, getField (createEntry newId p) "created_at" = some (JVal.str a)
          ∧ getField (createEntry newId p) "updated_at" = some (JVal.str b)
          ∧ isoLe a b = true) := by
  refine ⟨?_, ?_, ?_, ?_, ?_, ?_⟩
  · simp [timestampFieldsOk, hpc, hpu]
  · simp [createEntry, getField_cons, hpc]
  · simp [createEntry, getField_cons, hpu]
  · intro cb hcb
    simp [updateEntry, getField_cons, getField_append, getField, hcb, Option.or]
  · have h1 : getField [("created_at", (getField existingEntry "created_at").getD JVal.undef)]
        "updated_at" = none := by simp [getField]
    simp only [updateEntry, List.cons_append, getField_cons, getField_append, h1, Option.or]
    simp [hpu]
  · intro h
    exact ⟨ca, ua, by simp [createEntry, getField_cons, hpc],
      by simp [createEntry, getField_cons, hpu], h⟩

/-- C9 witness: a payload whose timestamps are in order is stored in order. -/
theorem claim_C9_witness :
    timestampFieldsOk c9wPayload = true
    ∧ getField (createEntry (JVal.str "n") c9wPayload) "created_at"
        = some (JVal.str "2020-01-01T00:00:00.000Z")
    ∧ getField (createEntry (JVal.str "n") c9wPayload) "updated_at"
        = some (JVal.str "2021-01-01T00:00:00.000Z")
    ∧ isoLe "2020-01-01T00:00:00.000Z" "2021-01-01T00:00:00.000Z" = true :=
  have h := claim_C9 (JVal.str "n") (JVal.str "i") c9wPayload c2existing
    "2020-01-01T00:00:00.000Z" "2021-01-01T00:00:00.000Z" rfl rfl
  ⟨h.1, h.2.1, h.2.2.1, by decide⟩

/-- C9 counterexample: a payload whose created_at is ten years after its
updated_at passes the complete timestamp rule of the write schemas and is
stored as-is, so the stored entry violates created_at at most updated_at. -/
theorem claim_C9_counterexample :
    timestampFieldsOk c9payload = true
    ∧ getField (createEntry (JVal.str "e1") c9payload) "created_at"
        = some (JVal.str "2030-01-01T00:00:00.000Z")
    ∧ getField (createEntry (JVal.str "e1") c9payload) "updated_at"
        = some (JVal.str "2020-01-01T00:00:00.000Z")
    ∧ isoLe "2030-01-01T00:00:00.000Z" "2020-01-01T00:00:00.000Z" = false :=
  ⟨rfl, rfl, rfl, by decide⟩

theorem embeddingItemViolationsAux_eq_nil_iff (parseNum : String → Option ℚ) :
    ∀ (xs : List JVal) (i : ℕ),
      embeddingItemViolationsAux parseNum i xs = [] ↔
        ∀ x ∈ xs, (coerceNum parseNum x).isSome = true := by
  intro xs
  induction xs with
  | nil => intro i; simp [embeddingItemViolationsAux]
  | cons x rest ih =>
    intro i
    cases hx : coerceNum parseNum x with
    | none => simp [embeddingItemViolationsAux, hx]
    | some q => simp [embeddingItemViolationsAux, hx, ih (i + 1)]

theorem embeddingItemViolationsAux_map_num (parseNum : String → Option ℚ)
    (qs : List ℚ) (i : ℕ) :
    embeddingItemViolationsAux parseNum i (qs.map JVal.num) = [] := by
  rw [embeddingItemViolationsAux_eq_nil_iff]
  intro x hx
  rcases List.mem_map.mp hx with ⟨q, _, rfl⟩
  rfl

theorem coerce_all_isSome_map {parseNum : String → Option ℚ} :
    ∀ xs : List JVal, (∀ x ∈ xs, (coerceNum parseNum x).isSome = true) →
      xs.map (coerceNum parseNum) = (xs.filterMap (coerceNum parseNum)).map some
      ∧ (xs.filterMap (coerceNum parseNum)).length = xs.length := by
  intro xs
  induction xs with
  | nil => intro _; exact ⟨rfl, rfl⟩
  | cons x rest ih =>
    intro h
    rcases Option.isSome_iff_exists.mp (h x (List.mem_cons_self x rest)) with ⟨q, hq⟩
    have hrest := ih (fun y hy => h y (List.mem_cons_of_mem x hy))
    constructor
    · simp [List.filterMap_cons, hq, hrest.1]
    · simp [List.filterMap_cons, hq, hrest.2]

theorem validateEmbeddingArr_ok {parseNum : String → Option ℚ} {xs : List JVal}
    {ys : List ℚ} (h : validateEmbeddingArr parseNum xs = Except.ok ys) :
    xs.length = 768 ∧ ys.length = 768
    ∧ xs.map (coerceNum parseNum) = ys.map some := by
  simp only [validateEmbeddingArr] at h
  split at h
  · next hsplit =>
    rcases List.append_eq_nil.mp hsplit with ⟨hitem, hlen⟩
    have hall := (embeddingItemViolationsAux_eq_nil_iff parseNum xs 0).mp hitem
    have hlength : xs.length = 768 := by
      by_contra hn
      simp [hn] at hlen
    have hys : ys = xs.filterMap (coerceNum parseNum) := by simpa using h.symm
    have hmap := coerce_all_isSome_map xs hall
    refine ⟨hlength, ?_, ?_⟩
    · rw [hys, hmap.2, hlength]
    · rw [hys]; exact hmap.1
  · simp at h

/-- C8 amended: validation of primary_embedding never truncates or pads: an
accepted value canonicalizes element-by-element, in order, to exactly 768
numbers.  A wrong-length array of numbers draws the violation against
primary_embedding naming the expected length 768; a missing value draws a
required violation; a numeric value, or a string Joi cannot coerce to an
array, draws only an array-type violation that names no length (the length
rule is not reached).  Because the middleware validates with convert at its
default true, elements coerce: an array of length 768 all of whose elements
coerce to numbers (numeric strings included) is accepted with the coerced
numbers as the canonical embedding, so a value that is not literally a
sequence of numbers need not be rejected. -/
theorem claim_C8 (parseNum : String → Option ℚ) (parseArr : String → Option (List JVal)) :
    (∀ xs : List ℚ, xs.length ≠ 768 →
      validatePrimaryEmbedding parseNum parseArr (some (JVal.arr (xs.map JVal.num))) =
        Except.error [⟨"primary_embedding", "array.length", some 768⟩])
    ∧ (∀ v ys, validatePrimaryEmbedding parseNum parseArr v = Except.ok ys →
        ys.length = 768
        ∧ ∃ xs, (v = some (JVal.arr xs) ∨ ∃ s, v = some (JVal.str s) ∧ parseArr s = some xs)
          ∧ xs.length = 768 ∧ xs.map (coerceNum parseNum) = ys.map some)
    ∧ (∀ xs : List JVal, (∀ x ∈ xs, (coerceNum parseNum x).isSome = true) →
        xs.length = 768 →
        validatePrimaryEmbedding parseNum parseArr (some (JVal.arr xs)) =
          Except.ok (xs.filterMap (coerceNum parseNum)))
    ∧ (∀ s, parseArr s = none →
        validatePrimaryEmbedding parseNum parseArr (some (JVal.str s)) =
          Except.error [⟨"primary_embedding", "array.base", none⟩])
    ∧ (∀ q, validatePrimaryEmbedding parseNum parseArr (some (JVal.num q)) =
        Except.error [⟨"primary_embedding", "array.base", none⟩])
    ∧ validatePrimaryEmbedding parseNum parseArr none =
        Except.error [⟨"primary_embedding", "any.required", none⟩] := by
  refine ⟨?_, ?_, ?_, ?_, fun q => rfl, rfl⟩
  · intro xs h
    simp [validatePrimaryEmbedding, validateEmbeddingArr,
      embeddingItemViolationsAux_map_num, h]
  · intro v ys h
    cases v with
    | none => simp [validatePrimaryEmbedding] at h
    | some jv =>
      cases jv with
      | arr xs =>
        have h' : validateEmbeddingArr parseNum xs = Except.ok ys := h
        obtain ⟨h1, h2, h3⟩ := validateEmbeddingArr_ok h'
        exact ⟨h2, xs, Or.inl rfl, h1, h3⟩
      | str s =>
        simp only [validatePrimaryEmbedding] at h
        cases hs : parseArr s with
        | none => rw [hs] at h; simp at h
        | some xs =>
          rw [hs] at h
          obtain ⟨h1, h2, h3⟩ := validateEmbeddingArr_ok h
          exact ⟨h2, xs, Or.inr ⟨s, rfl, hs⟩, h1, h3⟩
      | num q => simp [validatePrimaryEmbedding] at h
      | jbool b => simp [validatePrimaryEmbedding] at h
      | undef => simp [validatePrimaryEmbedding] at h
  · intro xs hall hlen
    have hitem := (embeddingItemViolationsAux_eq_nil_iff parseNum xs 0).mpr hall
    simp [validatePrimaryEmbedding, validateEmbeddingArr, hitem, hlen]
  · intro s hs
    simp [validatePrimaryEmbedding, hs]

/-- C8 witness: the empty embedding draws the length violation naming 768,
and an array of 768 numeric strings is accepted by coercion, canonicalized
to its element-by-element numeric values. -/
theorem claim_C8_witness :
    validatePrimaryEmbedding parseOne parseArrNone
        (some (JVal.arr (([] : List ℚ).map JVal.num))) =
      Except.error [⟨"primary_embedding", "array.length", some 768⟩]
    ∧ validatePrimaryEmbedding parseOne parseArrNone
        (some (JVal.arr (List.replicate 768 (JVal.str "1")))) =
      Except.ok ((List.replicate 768 (JVal.str "1")).filterMap (coerceNum parseOne)) :=
  ⟨(claim_C8 parseOne parseArrNone).1 [] (by norm_num),
   (claim_C8 parseOne parseArrNone).2.2.1 (List.replicate 768 (JVal.str "1"))
     (by
       intro x hx
       rw [List.eq_of_mem_replicate hx]
       rfl)
     (List.length_replicate 768 (JVal.str "1"))⟩

/-- C8 counterexample: a primary_embedding that is the number 42 (not a
sequence of numbers of length 768, and not coercible to an array) fails
validation, but the only violation is the array-type violation, which
carries no limit, so no violation names the expected length 768, refuting
the claim for non-array values. -/
theorem claim_C8_counterexample :
    validatePrimaryEmbedding parseOne parseArrNone (some (JVal.num 42)) =
      Except.error [{ path := "primary_embedding", code := "array.base", limit := none }]
    ∧ ({ path := "primary_embedding", code := "array.base", limit := none } :
        Violation).limit ≠ some 768 := by
  exact ⟨rfl, by simp⟩

/-- C7 amended: on every write (the create and update schemas perform the
same check), validation of search_metadata accepts exactly the payloads
whose three knobs are each at least 0, and a value strictly below 0 draws a
min-violation carrying the limit 0; no upper bound (1 for the weights, 10
for boost_factor) is enforced by these schema literals, so the acceptance
condition is only the lower bounds.  An absent search_metadata is accepted
(the object is optional). -/
theorem claim_C7 (o : Obj) (bfv rwv upv : ℚ)
    (hbf : getField o "boost_factor" = some (JVal.num bfv))
    (hrw : getField o "recency_weight" = some (JVal.num rwv))
    (hup : getField o "user_preference_alignment" = some (JVal.num upv)) :
    (createSearchMetadataCheck (some o) = [] ↔ 0 ≤ bfv ∧ 0 ≤ rwv ∧ 0 ≤ upv)
    ∧ (∀ m, createSearchMetadataCheck m = updateSearchMetadataCheck m)
    ∧ createSearchMetadataCheck none = []
    ∧ (rwv < 0 →
        ({ path := "search_metadata.recency_weight", code := "number.min",
           limit := some 0 } : Violation) ∈ createSearchMetadataCheck (some o)) := by
  refine ⟨?_, fun m => rfl, rfl, ?_⟩
  · simp only [createSearchMetadataCheck, validateSearchMetadata, checkMetaField,
      hbf, hrw, hup, List.append_eq_nil]
    constructor
    · intro h
      rcases h with ⟨⟨h1, h2⟩, h3⟩
      refine ⟨?_, ?_, ?_⟩
      · by_contra hn
        simp [not_le.mp hn] at h1
      · by_contra hn
        simp [not_le.mp hn] at h2
      · by_contra hn
        simp [not_le.mp hn] at h3
    · intro ⟨h1, h2, h3⟩
      simp [not_lt.mpr h1, not_lt.mpr h2, not_lt.mpr h3]
  · intro h
    simp [createSearchMetadataCheck, validateSearchMetadata, checkMetaField,
      hbf, hrw, hup, h]

/-- C7 witness: an in-range metadata object is accepted. -/
theorem claim_C7_witness :
    createSearchMetadataCheck (some o7w) = [] ∧ (0 : ℚ) ≤ 1 :=
  have h := claim_C7 o7w 1 (1/2) (1/2) rfl rfl rfl
  ⟨h.1.mpr ⟨by norm_num, by norm_num, by norm_num⟩, by norm_num⟩

/-- C7 counterexample: the metadata object o7x carries recency_weight 2,
outside the documented range 0 to 1, yet both the create and the update
schema checks report no violation, refuting the claim that out-of-range
values are rejected on every write. -/
theorem claim_C7_counterexample :
    createSearchMetadataCheck (some o7x) = []
    ∧ updateSearchMetadataCheck (some o7x) = []
    ∧ ¬ ((2 : ℚ) ≤ 1) := by
  have hb : getField o7x "boost_factor" = some (JVal.num 1) := rfl
  have hr : getField o7x "recency_weight" = some (JVal.num 2) := rfl
  have hu : getField o7x "user_preference_alignment" = some (JVal.num (1/2)) := rfl
  refine ⟨?_, ?_, by norm_num⟩ <;>
    norm_num [createSearchMetadataCheck, updateSearchMetadataCheck,
      validateSearchMetadata, checkMetaField, hb, hr, hu]
